import Mathlib

/-!
# The Pile — status derivation and reconciliation engine

Shallow embedding of the status-derivation / reconciliation core of the
`the-pile-api` backend:

* `effective_status` embeds `PileEntry.effective_status`
  (`app/models/pile_entry.py`).
* `detect_abandoned_status` embeds `PileService._detect_abandoned_status`
  (`app/services/pile_service.py`).
* `processEntry` / `syncLoop` embed the per-entry body and loop of
  `PileService.sync_playtime` (`app/services/pile_service.py`).
* `createdPileEntry` embeds the entry-creation branch of
  `PileService._process_game_batch`.

Time is modelled as epoch seconds (`Int`).  Python `datetime` values are
instants (`Option Int` where the source field is nullable); `timedelta(days=d)`
is `d * 86400` seconds.  `datetime.fromtimestamp(t, tz=utc)` succeeds exactly
when the result fits the `datetime` year range 1..9999, i.e. for
`minTimestamp ≤ t ≤ maxTimestamp`; outside that range it raises `ValueError`,
which the source catches (yielding `None`).  The string-parsing branch of
`_detect_abandoned_status` (for `str`-typed `last_updated`) is not reachable
from the sync loop, which always passes a `datetime` or `None`; the embedding
takes the already-parsed instant.
-/

/-- `GameStatus` enum from `app/models/pile_entry.py`. -/
inductive GameStatus where
  | unplayed
  | playing
  | completed
  | abandoned
  | amnesty_granted
deriving DecidableEq, Repr

/-- The fields of `PileEntry` (plus its `steam_game.rtime_last_played` and
`steam_game.steam_app_id`) that the core logic reads.  Nullable columns are
`Option`; `abandon_reason` is `Option String` (`None` and `""` are both falsy
in Python). -/
structure PileEntry where
  app_id : Nat
  status : GameStatus
  playtime_minutes : Nat
  abandon_reason : Option String
  abandon_date : Option Int
  updated_at : Option Int
  created_at : Option Int
  rtime_last_played : Option Int
deriving DecidableEq, Repr

/-- `timedelta(days=90)` in seconds. -/
def threeMonthsSec : Int := 90 * 86400

/-- `timedelta(days=365)` in seconds. -/
def oneYearSec : Int := 365 * 86400

/-- Smallest epoch value `datetime.fromtimestamp(·, tz=utc)` accepts
(0001-01-01T00:00:00). -/
def minTimestamp : Int := -62135596800

/-- Largest epoch value `datetime.fromtimestamp(·, tz=utc)` accepts
(9999-12-31T23:59:59). -/
def maxTimestamp : Int := 253402300799

/-- The remote-timestamp branch of `effective_status` (pile_entry.py lines
75-91): `rtime_last_played` is used when truthy (nonzero) and
`datetime.fromtimestamp` does not raise; a caught conversion error yields
`None`. -/
def rtimeActivity : Option Int → Option Int
  | none => none
  | some t =>
    if t = 0 then none
    else if minTimestamp ≤ t ∧ t ≤ maxTimestamp then some t
    else none

/-- The truthiness test on `abandon_reason` combined with the
`startswith("Automatically detected")` check (pile_entry.py lines 55-59). -/
def manualReason : Option String → Bool
  | none => false
  | some r => r ≠ "" && !(r.startsWith "Automatically detected")

/-- Activity-date chain of `effective_status` (pile_entry.py lines 71-101):
remote last-played instant if convertible, else `updated_at or created_at`,
else the very-old sentinel `three_months_ago - timedelta(days=365)`. -/
def activityDate (e : PileEntry) (now : Int) : Int :=
  match rtimeActivity e.rtime_last_played with
  | some a => a
  | none =>
    match e.updated_at with
    | some u => u
    | none =>
      match e.created_at with
      | some c => c
      | none => (now - threeMonthsSec) - oneYearSec

/-- `PileEntry.effective_status` (pile_entry.py lines 44-117), with
`datetime.now(timezone.utc)` passed explicitly as `now`. -/
def effective_status (e : PileEntry) (now : Int) : GameStatus :=
  if e.status = .completed ∨ e.status = .amnesty_granted then
    e.status
  else if e.status = .abandoned ∧ manualReason e.abandon_reason then
    e.status
  else if e.status = .unplayed ∨ e.status = .playing ∨ e.status = .abandoned then
    let three_months_ago := now - threeMonthsSec
    let activity_date := activityDate e now
    if e.status = .unplayed ∧ e.playtime_minutes = 0 ∧
        activity_date < three_months_ago then
      .abandoned
    else if e.playtime_minutes > 0 ∧ activity_date < three_months_ago then
      .abandoned
    else
      e.status
  else
    e.status

/-- `PileService._detect_abandoned_status` (pile_service.py lines 272-367).
`last_updated` arrives as an instant or `None` (the `str` branch is dead in
the sync path); `datetime.now(timezone.utc)` is passed explicitly as `now`. -/
def detect_abandoned_status (current_playtime stored_playtime : Nat)
    (current_status : GameStatus) (last_updated : Option Int) (now : Int) :
    GameStatus :=
  if ¬(current_status = .unplayed ∨ current_status = .playing) then
    current_status
  else
    let playtime_unchanged := current_playtime = stored_playtime
    let three_months_ago := now - threeMonthsSec
    let last_activity : Int :=
      match last_updated with
      | none => three_months_ago - oneYearSec
      | some t => t
    if current_status = .unplayed ∧ current_playtime = 0 ∧
        last_activity < three_months_ago then
      .abandoned
    else if current_playtime > 0 ∧ playtime_unchanged ∧
        last_activity < three_months_ago then
      .abandoned
    else if current_status = .playing ∧ playtime_unchanged ∧
        current_playtime > 0 ∧ last_activity < three_months_ago then
      .abandoned
    else
      current_status

/-- `detect_abandoned_status` with criterion 3 (pile_service.py lines 358-365)
removed, for the redundancy claim. -/
def detect_abandoned_status_noC3 (current_playtime stored_playtime : Nat)
    (current_status : GameStatus) (last_updated : Option Int) (now : Int) :
    GameStatus :=
  if ¬(current_status = .unplayed ∨ current_status = .playing) then
    current_status
  else
    let playtime_unchanged := current_playtime = stored_playtime
    let three_months_ago := now - threeMonthsSec
    let last_activity : Int :=
      match last_updated with
      | none => three_months_ago - oneYearSec
      | some t => t
    if current_status = .unplayed ∧ current_playtime = 0 ∧
        last_activity < three_months_ago then
      .abandoned
    else if current_playtime > 0 ∧ playtime_unchanged ∧
        last_activity < three_months_ago then
      .abandoned
    else
      current_status

/-- One record of the fetched Steam library, as used by `sync_playtime`:
`playtime_map[app_id]` and the raw `rtime_last_played` field. -/
structure RemoteRecord where
  playtime_forever : Nat
  rtime_last_played : Option Int
deriving DecidableEq, Repr

/-- `last_played_map` construction (pile_service.py sync_playtime):
`if rtime_last_played and rtime_last_played > 0` — `None`, `0` and negative
values all map to `None`. -/
def lastPlayedOf (r : RemoteRecord) : Option Int :=
  match r.rtime_last_played with
  | none => none
  | some t => if t > 0 then some t else none

/-- `entry.updated_at or entry.created_at` (Python `or` on nullables). -/
def dbTimestamps (e : PileEntry) : Option Int :=
  match e.updated_at with
  | some u => some u
  | none => e.created_at

/-- The f-string `"Automatically detected during sync - no recent activity "
f"(using {activity_source} data)"` of `sync_playtime` (the two asserted
literals concatenate). -/
def abandonReasonText (activity_source : String) : String :=
  "Automatically detected during sync - no recent activity (using " ++
    activity_source ++ " data)"

/-- Result of processing one entry in the sync loop: the mutated entry plus
the two per-entry flags that feed `updated_count` and `abandoned_count`. -/
structure EntryResult where
  entry : PileEntry
  playtime_changed : Bool
  abandoned : Bool
deriving DecidableEq, Repr

/-- The `if steam_last_played: ... else: ...` fallback of the sync loop:
the activity instant passed to the predicate (`last_activity_date`). -/
def syncLastActivity (r : RemoteRecord) (e : PileEntry) : Option Int :=
  match lastPlayedOf r with
  | some t => some t
  | none => dbTimestamps e

/-- The `activity_source` label computed alongside `last_activity_date`. -/
def syncActivitySource (r : RemoteRecord) : String :=
  match lastPlayedOf r with
  | some _ => "Steam"
  | none => "Database"

/-- The `new_status` computed by the sync loop for one entry. -/
def syncNewStatus (now : Int) (r : RemoteRecord) (e : PileEntry) : GameStatus :=
  detect_abandoned_status r.playtime_forever e.playtime_minutes e.status
    (syncLastActivity r e) now

/-- Per-entry body of the `for entry in pile_entries` loop of
`PileService.sync_playtime` (pile_service.py lines 850-894). -/
def processEntry (now : Int) (r : RemoteRecord) (e : PileEntry) : EntryResult :=
  let current_playtime := r.playtime_forever
  let stored_playtime := e.playtime_minutes
  let new_status := syncNewStatus now r e
  let playtime_changed := current_playtime ≠ stored_playtime
  let e1 :=
    if playtime_changed then
      { e with playtime_minutes := current_playtime, updated_at := some now }
    else e
  let do_abandon := new_status ≠ e.status ∧ new_status = .abandoned
  let e2 :=
    if do_abandon then
      { e1 with
          status := new_status,
          abandon_date := some now,
          abandon_reason := some (abandonReasonText (syncActivitySource r)),
          updated_at := some now }
    else e1
  let e3 :=
    if playtime_changed ∨ new_status ≠ e2.status then
      { e2 with updated_at := some now }
    else e2
  { entry := e3,
    playtime_changed := playtime_changed,
    abandoned := do_abandon }

/-- Association-list lookup standing for `playtime_map` / `last_played_map`
keyed by Steam app id. -/
def lookupRemote (remote : List (Nat × RemoteRecord)) (appId : Nat) :
    Option RemoteRecord :=
  match remote with
  | [] => none
  | (k, r) :: rest => if k = appId then some r else lookupRemote rest appId

/-- Aggregate result of `sync_playtime`: the entry list after the loop and the
three counters. -/
structure SyncResult where
  entries : List PileEntry
  checked_count : Nat
  updated_count : Nat
  abandoned_count : Nat
deriving DecidableEq, Repr

/-- The sync loop of `PileService.sync_playtime` (pile_service.py lines
836-896).  The database query filters to entries whose app id occurs in
`playtime_map`, so an entry with no remote record passes through untouched
and uncounted. -/
def syncLoop (now : Int) (remote : List (Nat × RemoteRecord)) :
    List PileEntry → SyncResult
  | [] => ⟨[], 0, 0, 0⟩
  | e :: rest =>
    let tail := syncLoop now remote rest
    match lookupRemote remote e.app_id with
    | none =>
      { tail with entries := e :: tail.entries }
    | some r =>
      let res := processEntry now r e
      { entries := res.entry :: tail.entries,
        checked_count := tail.checked_count + 1,
        updated_count := tail.updated_count +
          (if res.playtime_changed then 1 else 0),
        abandoned_count := tail.abandoned_count +
          (if res.abandoned then 1 else 0) }

/-- The entry-creation branch of `PileService._process_game_batch`
(pile_service.py lines 765-780): a new `PileEntry` for a remote record with
no local counterpart. -/
def createdPileEntry (appId : Nat) (current_playtime : Nat) : PileEntry :=
  { app_id := appId,
    status := if current_playtime = 0 then .unplayed else .playing,
    playtime_minutes := current_playtime,
    abandon_reason := none,
    abandon_date := none,
    updated_at := none,
    created_at := none,
    rtime_last_played := none }

/-! ## Spec-side definitions (for the refinement claims)

These restate §4.1 of the written specification in its own words, to be
compared with the code-derived `effective_status` above.  The spec's step 3a
admits only a "valid positive epoch value" from the remote timestamp. -/

/-- Spec §4.1 step 3a: the remote timestamp is used only when it is a valid
positive epoch value. -/
def specRemoteInstant : Option Int → Option Int
  | none => none
  | some t => if 0 < t ∧ t ≤ maxTimestamp then some t else none

/-- Spec §4.1 step 3: reference activity instant — remote last-played
preferred, else `updated_at`, else `created_at`, else the very-old sentinel
(one year before the abandonment threshold). -/
def specReferenceInstant (e : PileEntry) (now : Int) : Int :=
  match specRemoteInstant e.rtime_last_played with
  | some t => t
  | none =>
    match e.updated_at with
    | some u => u
    | none =>
      match e.created_at with
      | some c => c
      | none => (now - threeMonthsSec) - oneYearSec

/-- Spec §4.1 steps 4-6 (the priority algorithm of claim C1): threshold is
`now - 90 days`; Abandoned if Unplayed with zero playtime and a stale
reference instant, else Abandoned if positive playtime and a stale reference
instant, else the stored status unchanged. -/
def specStatusDerivation (e : PileEntry) (now : Int) : GameStatus :=
  let threshold := now - threeMonthsSec
  let ref := specReferenceInstant e now
  if e.status = .unplayed ∧ e.playtime_minutes = 0 ∧ ref < threshold then
    .abandoned
  else if e.playtime_minutes > 0 ∧ ref < threshold then
    .abandoned
  else
    e.status

/-! ## Claim theorems -/

/-- C2: `effective_status` returns either the stored status or Abandoned —
derivation never un-abandons and never produces any other change; in
particular Completed and AmnestyGranted are never overridden. -/
theorem effective_status_one_directional (e : PileEntry) (now : Int) :
    (effective_status e now = e.status ∨ effective_status e now = .abandoned) ∧
    ((e.status = .completed ∨ e.status = .amnesty_granted) →
      effective_status e now = e.status) := by
  constructor
  · simp only [effective_status]
    split_ifs <;> simp
  · intro h
    simp only [effective_status]
    split_ifs
    simp_all

/-- Witness for `effective_status_one_directional` at a concrete entry. -/
theorem effective_status_one_directional_witness :
    (GameStatus.completed = .completed ∨
      GameStatus.completed = .amnesty_granted) ∧
    effective_status ⟨1, .completed, 0, none, none, none, none, none⟩ 0 =
      .completed :=
  ⟨Or.inl rfl,
    (effective_status_one_directional
      ⟨1, .completed, 0, none, none, none, none, none⟩ 0).2 (Or.inl rfl)⟩

/-- C3: a manual abandonment (non-empty `abandon_reason` not starting with
"Automatically detected") is honored as-is: `effective_status` is Abandoned
regardless of playtime and timestamps. -/
theorem manual_abandon_honored (e : PileEntry) (now : Int) (r : String)
    (h1 : e.status = .abandoned) (h2 : e.abandon_reason = some r)
    (h3 : r ≠ "") (h4 : ¬ (r.startsWith "Automatically detected" = true)) :
    effective_status e now = .abandoned := by
  unfold effective_status
  have hm : manualReason e.abandon_reason = true := by
    rw [h2]
    simp [manualReason, h3, h4]
  split_ifs with hA hB hC
  · rcases hA with h | h <;> rw [h1] at h <;> exact absurd h (by simp)
  · exact h1
  · exact absurd ⟨h1, hm⟩ hB
  · exact absurd ⟨h1, hm⟩ hB

set_option maxRecDepth 10000 in
/-- Witness for `manual_abandon_honored`: a recently active, high-playtime
entry manually marked abandoned stays Abandoned. -/
theorem manual_abandon_honored_witness :
    effective_status
      ⟨1, .abandoned, 500, some "Got bored of it", none, some 1000000000,
        none, some 1000000000⟩ 1000000000 = .abandoned :=
  manual_abandon_honored
    ⟨1, .abandoned, 500, some "Got bored of it", none, some 1000000000,
      none, some 1000000000⟩ 1000000000 "Got bored of it"
    rfl rfl (by decide) (by decide)

/-- C8: a newly created entry adopts the remote playtime, is Unplayed when
that playtime is 0 and Playing otherwise, and is never born Abandoned. -/
theorem created_entry_seeding (appId p : Nat) :
    (createdPileEntry appId p).playtime_minutes = p ∧
    (createdPileEntry appId p).status =
      (if p = 0 then .unplayed else .playing) ∧
    (createdPileEntry appId p).status ≠ .abandoned := by
  refine ⟨rfl, rfl, ?_⟩
  unfold createdPileEntry
  by_cases h : p = 0 <;> simp [h]

/-- C10: criterion 3 of `_detect_abandoned_status` is subsumed by criterion
2: removing it leaves the predicate extensionally unchanged. -/
theorem criterion3_redundant (c s : Nat) (st : GameStatus) (lu : Option Int)
    (now : Int) :
    detect_abandoned_status c s st lu now =
      detect_abandoned_status_noC3 c s st lu now := by
  simp only [detect_abandoned_status, detect_abandoned_status_noC3]
  split_ifs <;> first | rfl | tauto

/-- With an absent or nonnegative remote timestamp, the code's activity-date
chain agrees with the spec's reference instant (they differ only on negative
epoch values inside the convertible range). -/
theorem activityDate_eq_specReference (e : PileEntry) (now : Int)
    (hrt : ∀ t, e.rtime_last_played = some t → 0 ≤ t) :
    activityDate e now = specReferenceInstant e now := by
  have hr : rtimeActivity e.rtime_last_played =
      specRemoteInstant e.rtime_last_played := by
    cases h : e.rtime_last_played with
    | none => rfl
    | some t =>
      have ht := hrt t h
      simp only [rtimeActivity, specRemoteInstant]
      by_cases h0 : t = 0
      · subst h0
        norm_num [minTimestamp, maxTimestamp]
      · have hpos : 0 < t := lt_of_le_of_ne ht (Ne.symm h0)
        have hmin : minTimestamp ≤ t := by
          have : minTimestamp < 0 := by norm_num [minTimestamp]
          omega
        by_cases hmax : t ≤ maxTimestamp <;> simp [h0, hpos, hmin, hmax]
  unfold activityDate specReferenceInstant
  rw [hr]

/-- C1 (amended): for every entry in the derivation triangle (Unplayed,
Playing, or Abandoned with an auto-detected reason) whose remote last-played
timestamp is absent or nonnegative, `effective_status` follows the spec's
priority algorithm exactly.  (A negative timestamp is the one divergence: the
code uses it as a pre-epoch instant instead of treating it as absent.) -/
theorem effective_status_follows_spec (e : PileEntry) (now : Int)
    (hdom : e.status = .unplayed ∨ e.status = .playing ∨
      (e.status = .abandoned ∧ ∃ r, e.abandon_reason = some r ∧
        r.startsWith "Automatically detected" = true))
    (hrt : ∀ t, e.rtime_last_played = some t → 0 ≤ t) :
    effective_status e now = specStatusDerivation e now := by
  have hact := activityDate_eq_specReference e now hrt
  rcases hdom with h | h | ⟨h, r, hr, hs⟩
  · simp only [effective_status, specStatusDerivation, h, hact]
    simp
  · simp only [effective_status, specStatusDerivation, h, hact]
    simp
  · simp only [effective_status, specStatusDerivation, h, hact, hr]
    simp [manualReason, hs]

/-- Witness for `effective_status_follows_spec`: a stale Unplayed entry. -/
theorem effective_status_follows_spec_witness :
    effective_status ⟨2, .unplayed, 0, none, none, some 0, none, none⟩
        10000000 =
      specStatusDerivation ⟨2, .unplayed, 0, none, none, some 0, none, none⟩
        10000000 :=
  effective_status_follows_spec _ _ (Or.inl rfl) (fun _ h => nomatch h)

/-- Playing entry, recently updated, whose remote timestamp is the negative
epoch value -1. -/
def negRtimeEntry : PileEntry :=
  ⟨1, .playing, 10, none, none, some 1000000000, none, some (-1)⟩

/-- C1 counterexample: at `negRtimeEntry` the code converts the negative
remote timestamp to a pre-epoch instant and abandons, while the spec's
algorithm treats it as absent, falls back to the recent `updated_at`, and
keeps Playing. -/
theorem effective_status_spec_counterexample :
    negRtimeEntry.status = .playing ∧
    effective_status negRtimeEntry 1000000000 = .abandoned ∧
    specStatusDerivation negRtimeEntry 1000000000 = .playing := by decide

/-- Playing entry, recently updated, whose remote timestamp is the negative
epoch value -5. -/
def negRtimeEntryB : PileEntry :=
  ⟨3, .playing, 25, none, none, some 2000000000, none, some (-5)⟩

/-- C6 counterexample: a negative remote timestamp is NOT treated as absent
by `effective_status` — the entry abandons, while with the timestamp actually
absent the recent `updated_at` fallback keeps it Playing. -/
theorem negative_timestamp_not_absent :
    effective_status negRtimeEntryB 2000000000 = .abandoned ∧
    effective_status { negRtimeEntryB with rtime_last_played := none }
      2000000000 = .playing := by decide

/-- `effective_status` depends on the entry only through its status,
playtime, abandon reason and activity date. -/
theorem effective_status_congr (e e' : PileEntry) (now : Int)
    (h1 : e.status = e'.status) (h2 : e.playtime_minutes = e'.playtime_minutes)
    (h3 : e.abandon_reason = e'.abandon_reason)
    (h4 : activityDate e now = activityDate e' now) :
    effective_status e now = effective_status e' now := by
  simp only [effective_status, h1, h2, h3, h4]

/-- C6 (amended): a remote timestamp of 0 (or one outside the convertible
epoch range) is treated as absent by the derivation — the result is the same
as with no timestamp at all, falling back to the database timestamps, and no
error is raised; in the sync path a timestamp that is 0 or negative is
treated as absent.  (A negative in-range timestamp, however, is used as a
pre-epoch instant by `effective_status`.) -/
theorem timestamp_absence_handling (e : PileEntry) (now : Int) :
    (∀ t, e.rtime_last_played = some t →
      (t = 0 ∨ t < minTimestamp ∨ maxTimestamp < t) →
      effective_status e now =
        effective_status { e with rtime_last_played := none } now) ∧
    (∀ (r : RemoteRecord) (t : Int), r.rtime_last_played = some t → t ≤ 0 →
      lastPlayedOf r = none) := by
  constructor
  · intro t ht hbad
    have hr : rtimeActivity e.rtime_last_played = none := by
      rw [ht]
      rcases hbad with h | h | h <;> simp [rtimeActivity, h]
    apply effective_status_congr <;> try rfl
    simp only [activityDate, hr]
    rfl
  · intro r t h hle
    simp only [lastPlayedOf, h]
    have : ¬ t > 0 := by omega
    simp [this]

/-- Witness for `timestamp_absence_handling`: a zero timestamp entry and a
negative sync record. -/
theorem timestamp_absence_handling_witness :
    effective_status ⟨4, .playing, 5, none, none, some 100, none, some 0⟩
        200 =
      effective_status ⟨4, .playing, 5, none, none, some 100, none, none⟩
        200 ∧
    lastPlayedOf ⟨50, some (-3)⟩ = none :=
  ⟨(timestamp_absence_handling
      ⟨4, .playing, 5, none, none, some 100, none, some 0⟩ 200).1 0 rfl
      (Or.inl rfl),
    (timestamp_absence_handling
      ⟨4, .playing, 5, none, none, some 100, none, some 0⟩ 200).2
      ⟨50, some (-3)⟩ (-3) rfl (by decide)⟩

/-- C5 counterexample: with current playtime 100 different from stored 50,
status Playing and a stale reference instant, the sync predicate keeps
Playing while the oracle's rules abandon an entry with that playtime, status
and reference instant. -/
theorem detect_vs_oracle_counterexample :
    detect_abandoned_status 100 50 .playing (some 1) 100000000 = .playing ∧
    effective_status ⟨5, .playing, 100, none, none, some 1, none, none⟩
      100000000 = .abandoned := by decide

/-- C5 (amended): when current and stored playtime agree, the sync predicate
applies exactly the oracle's abandonment rules to Unplayed/Playing entries
(an entry with that playtime, status and reference instant); when current
playtime differs from stored, the predicate's nonzero-playtime rule is
additionally gated on unchanged playtime and can keep a status the oracle
would abandon; for a status outside Unplayed/Playing it returns the stored
status unchanged. -/
theorem detect_matches_oracle (p c s : Nat) (st : GameStatus)
    (act : Option Int) (now : Int) :
    ((st = .unplayed ∨ st = .playing) →
      detect_abandoned_status p p st act now =
        effective_status ⟨0, st, p, none, none, act, none, none⟩ now) ∧
    (¬(st = .unplayed ∨ st = .playing) →
      detect_abandoned_status c s st act now = st) := by
  constructor
  · intro hst
    have hact : activityDate ⟨0, st, p, none, none, act, none, none⟩ now =
        (match act with
          | none => (now - threeMonthsSec) - oneYearSec
          | some t => t) := by
      cases act <;> rfl
    rcases hst with h | h <;> subst h <;>
      cases act with
      | none =>
        simp only [detect_abandoned_status, effective_status, hact,
          manualReason]
        norm_num
        split_ifs <;> tauto
      | some t =>
        simp only [detect_abandoned_status, effective_status, hact,
          manualReason]
        norm_num
        split_ifs <;> tauto
  · intro hst
    simp only [detect_abandoned_status, if_pos hst]

/-- Witness for `detect_matches_oracle`: a recently played Playing entry and
a Completed entry. -/
theorem detect_matches_oracle_witness :
    detect_abandoned_status 7 7 .playing (some 49000000) 50000000 =
      effective_status ⟨0, .playing, 7, none, none, some 49000000, none, none⟩
        50000000 ∧
    detect_abandoned_status 9 4 .completed (some 49000000) 50000000 =
      .completed :=
  ⟨(detect_matches_oracle 7 9 4 .playing (some 49000000) 50000000).1
      (Or.inr rfl),
    (detect_matches_oracle 7 9 4 .completed (some 49000000) 50000000).2
      (by decide)⟩

/-! ## Per-entry lemmas about the sync loop body -/

/-- The sync predicate either keeps the status or returns Abandoned. -/
theorem detect_result_cases (c s : Nat) (st : GameStatus) (lu : Option Int)
    (now : Int) :
    detect_abandoned_status c s st lu now = st ∨
      detect_abandoned_status c s st lu now = .abandoned := by
  simp only [detect_abandoned_status]
  split_ifs <;> simp

/-- An already-Abandoned status passes through the sync predicate. -/
theorem detect_abandoned_fixpoint (c s : Nat) (lu : Option Int) (now : Int) :
    detect_abandoned_status c s .abandoned lu now = .abandoned := by
  simp [detect_abandoned_status]

/-- The sync loop body never changes an entry's app id. -/
theorem processEntry_app_id (now : Int) (r : RemoteRecord) (e : PileEntry) :
    (processEntry now r e).entry.app_id = e.app_id := by
  simp only [processEntry]
  split_ifs <;> rfl

/-- After the sync loop body, the entry's playtime is the remote playtime. -/
theorem processEntry_playtime (now : Int) (r : RemoteRecord) (e : PileEntry) :
    (processEntry now r e).entry.playtime_minutes = r.playtime_forever := by
  simp only [processEntry]
  split_ifs <;> simp_all

/-- When stored playtime already equals the remote value, the loop body
reports no playtime change. -/
theorem processEntry_changed_flag (now : Int) (r : RemoteRecord)
    (e : PileEntry) (hp : e.playtime_minutes = r.playtime_forever) :
    (processEntry now r e).playtime_changed = false := by
  simp [processEntry, hp]

/-- When the playtime is already adopted and the predicate keeps the status,
the loop body mutates nothing. -/
theorem processEntry_noop (now : Int) (r : RemoteRecord) (e : PileEntry)
    (hp : e.playtime_minutes = r.playtime_forever)
    (hn : syncNewStatus now r e = e.status) :
    processEntry now r e = ⟨e, false, false⟩ := by
  simp [processEntry, hp, hn]

/-- On an entry whose playtime is already adopted, applying the loop body a
second time mutates nothing: the first application either left the entry
alone or abandoned it, and an Abandoned entry passes the predicate
unchanged. -/
theorem processEntry_stable_of_unchanged (now : Int) (r : RemoteRecord)
    (e : PileEntry) (hp : e.playtime_minutes = r.playtime_forever) :
    processEntry now r (processEntry now r e).entry =
      ⟨(processEntry now r e).entry, false, false⟩ := by
  by_cases hd : syncNewStatus now r e = e.status
  · have h1 : processEntry now r e = ⟨e, false, false⟩ :=
      processEntry_noop now r e hp hd
    rw [h1]
    exact processEntry_noop now r e hp hd
  · have hn : syncNewStatus now r e = .abandoned := by
      rcases detect_result_cases r.playtime_forever e.playtime_minutes
        e.status (syncLastActivity r e) now with h | h
      · exact absurd h hd
      · exact h
    have hne : GameStatus.abandoned ≠ e.status := by
      intro h
      exact hd (hn.trans h)
    have hs1 : (processEntry now r e).entry.status = .abandoned := by
      simp [processEntry, hp, hn, hne]
    apply processEntry_noop
    · exact processEntry_playtime now r e
    · simp only [syncNewStatus, hs1]
      exact detect_abandoned_fixpoint _ _ _ _

/-! ## List-level lemmas about the sync loop -/

/-- An empty remote batch leaves the whole entry list untouched with all
counters at zero. -/
theorem syncLoop_nil_batch (now : Int) (entries : List PileEntry) :
    syncLoop now [] entries = ⟨entries, 0, 0, 0⟩ := by
  induction entries with
  | nil => rfl
  | cons e rest ih => simp [syncLoop, lookupRemote, ih]

/-- The entry list after the sync loop, element by element. -/
theorem syncLoop_entries_map (now : Int) (remote : List (Nat × RemoteRecord))
    (entries : List PileEntry) :
    (syncLoop now remote entries).entries = entries.map (fun e =>
      match lookupRemote remote e.app_id with
      | none => e
      | some r => (processEntry now r e).entry) := by
  induction entries with
  | nil => rfl
  | cons e rest ih =>
    simp only [syncLoop, List.map]
    cases h : lookupRemote remote e.app_id <;> simp [h, ih]

/-- Frame property: position by position, an entry whose app id has no
remote record comes out of the sync loop identical. -/
theorem syncLoop_frame (now : Int) (remote : List (Nat × RemoteRecord))
    (entries : List PileEntry) :
    List.Forall₂ (fun e ef => lookupRemote remote e.app_id = none → ef = e)
      entries (syncLoop now remote entries).entries := by
  induction entries with
  | nil => exact List.Forall₂.nil
  | cons e rest ih =>
    cases h : lookupRemote remote e.app_id with
    | none =>
      have hshape : (syncLoop now remote (e :: rest)).entries =
          e :: (syncLoop now remote rest).entries := by
        simp [syncLoop, h]
      rw [hshape]
      exact List.Forall₂.cons (fun _ => rfl) ih
    | some r =>
      have hshape : (syncLoop now remote (e :: rest)).entries =
          (processEntry now r e).entry :: (syncLoop now remote rest).entries := by
        simp [syncLoop, h]
      rw [hshape]
      exact List.Forall₂.cons (fun hn => absurd h (by simp [hn])) ih

/-- If every matched entry already stores its remote playtime, the sync loop
reports zero playtime updates. -/
theorem syncLoop_updated_zero_of_playtime (now : Int)
    (remote : List (Nat × RemoteRecord)) (L : List PileEntry)
    (h : ∀ e ∈ L, ∀ r, lookupRemote remote e.app_id = some r →
      e.playtime_minutes = r.playtime_forever) :
    (syncLoop now remote L).updated_count = 0 := by
  induction L with
  | nil => rfl
  | cons e rest ih =>
    have hrest := ih (fun x hx => h x (List.mem_cons_of_mem _ hx))
    cases hl : lookupRemote remote e.app_id with
    | none => simp [syncLoop, hl, hrest]
    | some r =>
      have hf := processEntry_changed_flag now r e
        (h e (List.mem_cons_self _ _) r hl)
      simp [syncLoop, hl, hrest, hf]

/-- If the loop body is a no-op on every matched entry, the sync loop keeps
the list and reports zero updates and zero abandonments. -/
theorem syncLoop_of_stable (now : Int) (remote : List (Nat × RemoteRecord))
    (L : List PileEntry)
    (h : ∀ e ∈ L, ∀ r, lookupRemote remote e.app_id = some r →
      processEntry now r e = ⟨e, false, false⟩) :
    (syncLoop now remote L).entries = L ∧
    (syncLoop now remote L).updated_count = 0 ∧
    (syncLoop now remote L).abandoned_count = 0 := by
  induction L with
  | nil => exact ⟨rfl, rfl, rfl⟩
  | cons e rest ih =>
    obtain ⟨h1, h2, h3⟩ := ih (fun x hx => h x (List.mem_cons_of_mem _ hx))
    cases hl : lookupRemote remote e.app_id with
    | none => simp [syncLoop, hl, h1, h2, h3]
    | some r =>
      have he := h e (List.mem_cons_self _ _) r hl
      simp [syncLoop, hl, h1, h2, h3, he]

/-- Every entry coming out of the sync loop is an input entry, either
untouched (no remote record) or processed once by the loop body. -/
theorem mem_syncLoop_entries (now : Int) (remote : List (Nat × RemoteRecord))
    (entries : List PileEntry) (x : PileEntry)
    (hx : x ∈ (syncLoop now remote entries).entries) :
    ∃ e0 ∈ entries,
      (lookupRemote remote e0.app_id = none ∧ x = e0) ∨
      ∃ r, lookupRemote remote e0.app_id = some r ∧
        x = (processEntry now r e0).entry := by
  rw [syncLoop_entries_map] at hx
  obtain ⟨e0, he0, hfe⟩ := List.mem_map.mp hx
  refine ⟨e0, he0, ?_⟩
  cases hl : lookupRemote remote e0.app_id with
  | none =>
    left
    rw [hl] at hfe
    exact ⟨rfl, hfe.symm⟩
  | some r =>
    right
    rw [hl] at hfe
    exact ⟨r, rfl, hfe.symm⟩

/-- After one sync run, every matched entry stores its remote playtime. -/
theorem syncLoop_playtime_adopted (now : Int)
    (remote : List (Nat × RemoteRecord)) (entries : List PileEntry) :
    ∀ e ∈ (syncLoop now remote entries).entries, ∀ r,
      lookupRemote remote e.app_id = some r →
      e.playtime_minutes = r.playtime_forever := by
  intro e he r hr
  obtain ⟨e0, _, hcase⟩ := mem_syncLoop_entries now remote entries e he
  rcases hcase with ⟨hl, rfl⟩ | ⟨r0, hl, rfl⟩
  · rw [hl] at hr
    cases hr
  · rw [processEntry_app_id, hl] at hr
    injection hr with h
    subst h
    exact processEntry_playtime now _ e0

/-- After two sync runs, the loop body is a no-op on every matched entry. -/
theorem syncLoop_stable_entries (now : Int)
    (remote : List (Nat × RemoteRecord)) (entries : List PileEntry) :
    ∀ e ∈ (syncLoop now remote
        (syncLoop now remote entries).entries).entries, ∀ r,
      lookupRemote remote e.app_id = some r →
      processEntry now r e = ⟨e, false, false⟩ := by
  intro e he r hr
  obtain ⟨e1, he1, hcase⟩ :=
    mem_syncLoop_entries now remote (syncLoop now remote entries).entries e he
  rcases hcase with ⟨hl, rfl⟩ | ⟨r1, hl, rfl⟩
  · rw [hl] at hr
    cases hr
  · rw [processEntry_app_id, hl] at hr
    injection hr with h
    subst h
    exact processEntry_stable_of_unchanged now _ e1
      (syncLoop_playtime_adopted now remote entries e1 he1 _ hl)

/-- C4 (amended): with identical remote records, the second reconcile run
reports zero playtime updates, but may still abandon entries whose playtime
changed on the first run while the reference instant was stale; from the
second run on the loop is a fixed point — a third identical run keeps the
entry list and reports zero updates and zero abandonments. -/
theorem sync_stabilizes_from_second_run (now : Int)
    (remote : List (Nat × RemoteRecord)) (entries : List PileEntry) :
    (syncLoop now remote
        (syncLoop now remote entries).entries).updated_count = 0 ∧
    (syncLoop now remote (syncLoop now remote
        (syncLoop now remote entries).entries).entries).entries =
      (syncLoop now remote
        (syncLoop now remote entries).entries).entries ∧
    (syncLoop now remote (syncLoop now remote
        (syncLoop now remote entries).entries).entries).updated_count = 0 ∧
    (syncLoop now remote (syncLoop now remote
        (syncLoop now remote entries).entries).entries).abandoned_count = 0 := by
  refine ⟨?_, ?_⟩
  · exact syncLoop_updated_zero_of_playtime now remote _
      (syncLoop_playtime_adopted now remote entries)
  · obtain ⟨h1, h2, h3⟩ := syncLoop_of_stable now remote
      (syncLoop now remote (syncLoop now remote entries).entries).entries
      (syncLoop_stable_entries now remote entries)
    exact ⟨h1, h2, h3⟩

/-- Remote batch refuting C4's idempotence: playtime grew to 100 while the
remote last-played instant stayed stale. -/
def c4Remote : List (Nat × RemoteRecord) := [(7, ⟨100, some 1⟩)]

/-- Local entry refuting C4's idempotence: Playing with stored playtime 50
and a fresh `updated_at`. -/
def c4Entry : PileEntry :=
  ⟨7, .playing, 50, none, none, some 1000000000, none, none⟩

/-- C4 counterexample: the first run only updates playtime (its abandonment
rule is gated on unchanged playtime), and the second run with the identical
batch then abandons the entry — `abandoned_count = 1`, not 0. -/
theorem sync_idempotence_counterexample :
    (syncLoop 1000000000 c4Remote [c4Entry]).abandoned_count = 0 ∧
    (syncLoop 1000000000 c4Remote
      (syncLoop 1000000000 c4Remote [c4Entry]).entries).abandoned_count = 1 := by
  decide

/-- C7 (amended): when the sync loop abandons an entry it writes the reason
template with `activity_source` label "Steam" when the remote last-played
timestamp supplied the reference instant and "Database" when a database
timestamp did (not "Remote"/"Local"). -/
theorem abandon_reason_source_label (now : Int) (r : RemoteRecord)
    (e : PileEntry) (h : (processEntry now r e).abandoned = true) :
    (processEntry now r e).entry.abandon_reason =
      some (abandonReasonText (syncActivitySource r)) ∧
    syncActivitySource r =
      (if (lastPlayedOf r).isSome then "Steam" else "Database") := by
  constructor
  · have hd : syncNewStatus now r e ≠ e.status ∧
        syncNewStatus now r e = .abandoned := by
      simpa [processEntry] using h
    have hne : ¬ (GameStatus.abandoned = e.status) := fun hh =>
      hd.1 (hd.2.trans hh)
    simp [processEntry, hd.2, hne]
  · cases hl : lastPlayedOf r <;> simp [syncActivitySource, hl]

/-- Witness for `abandon_reason_source_label`: an entry abandoned via the
database-timestamp fallback. -/
theorem abandon_reason_source_label_witness :
    (processEntry 1000000000 ⟨100, none⟩
      ⟨9, .playing, 100, none, none, some 992137600, none, none⟩).entry.abandon_reason =
      some (abandonReasonText (syncActivitySource ⟨100, none⟩)) ∧
    syncActivitySource ⟨100, none⟩ =
      (if (lastPlayedOf ⟨100, none⟩).isSome then "Steam" else "Database") :=
  abandon_reason_source_label 1000000000 ⟨100, none⟩
    ⟨9, .playing, 100, none, none, some 992137600, none, none⟩ (by decide)

/-- Remote record (no last-played timestamp) for the C7 counterexample. -/
def c7Record : RemoteRecord := ⟨100, none⟩

/-- Local entry for the C7 counterexample: Playing, playtime 100, last
updated 91 days before the sync instant. -/
def c7Entry : PileEntry :=
  ⟨9, .playing, 100, none, none, some 992137600, none, none⟩

/-- C7 counterexample: an entry abandoned via the local `updated_at`
fallback gets reason text "... (using Database data)", which matches neither
"using Local data" nor "using Remote data" claimed by the spec. -/
theorem abandon_reason_label_counterexample :
    (processEntry 1000000000 c7Record c7Entry).abandoned = true ∧
    (processEntry 1000000000 c7Record c7Entry).entry.abandon_reason =
      some (abandonReasonText "Database") ∧
    abandonReasonText "Database" ≠ abandonReasonText "Local" ∧
    abandonReasonText "Database" ≠ abandonReasonText "Remote" := by
  decide

/-- C9: reconciling any entry list against an empty remote batch returns all
counters zero and the list unchanged, and in any batch an entry whose remote
id is absent passes through the loop untouched, position by position. -/
theorem sync_empty_batch_and_frame (now : Int) (entries : List PileEntry)
    (remote : List (Nat × RemoteRecord)) :
    syncLoop now [] entries = ⟨entries, 0, 0, 0⟩ ∧
    List.Forall₂ (fun e ef => lookupRemote remote e.app_id = none → ef = e)
      entries (syncLoop now remote entries).entries :=
  ⟨syncLoop_nil_batch now entries, syncLoop_frame now remote entries⟩
